import Mathlib

/-!
Verification of the pin capability and multiplexing subsystem of the
bouffalo-hal repository: the GPIO alternate-function transition engine
(gpio.rs and gpio/pad_v1.rs), the UART pad composition layer (uart.rs)
and the interrupt-to-future bridge (gpio/input_async.rs), shallowly
embedded as pure Lean functions over explicit register-file states.
-/

namespace BouffaloHal

/-- Pointwise update of a register file indexed by natural numbers;
models one register write into an array of registers. -/
def upd {α : Type} (f : Nat → α) (i : Nat) (v : α) : Nat → α :=
  fun j => if j = i then v else f j

theorem upd_same {α : Type} (f : Nat → α) (i : Nat) (v : α) : upd f i v i = v := by
  simp [upd]

theorem upd_other {α : Type} (f : Nat → α) (i j : Nat) (v : α) (h : j ≠ i) :
    upd f i v j = f j := by
  simp [upd, h]

/-! ## The glb-v2 GPIO configuration register

Modelled from the spec: the glb module of the repository (the v2 register
layout and its per-field accessors) is not among the sources; the spec
lists typed per-field accessors for function-select, input and output
enable, pull, drive strength, schmitt-trigger enable, interrupt mode and
interrupt mask, clear and state. We model one v2 configuration register
as a record with one field per accessor, and each accessor as a record
update touching exactly its own field. -/

/-- GPIO function selection codes used by the v2 function-select field. -/
inductive FunctionV2
  | gpio
  | uart
  | mmUart
  | spi0
  | spi1
  | i2c0
  | i2c1
  | i2c2
  | i2c3
  | pwm0
  | pwm1
  deriving DecidableEq

/-- Pull resistor state: no pull, pull-up or pull-down. -/
inductive Pull
  | none
  | up
  | down
  deriving DecidableEq

/-- Numeric code of a pull state in the v1 packed register field. -/
def Pull.code : Pull → Nat
  | .none => 0
  | .up => 1
  | .down => 2

/-- GPIO output mode on the v2 layout. -/
inductive ModeV2
  | normal
  | setClear
  deriving DecidableEq

/-- Drive strength selection. -/
inductive DriveV2
  | drive0
  | drive1
  | drive2
  | drive3
  deriving DecidableEq

/-- One glb-v2 GPIO configuration register (one register per pad).
Modelled from the spec: record of the fields the spec names. -/
structure GpioConfig where
  inputEnable : Bool
  schmitt : Bool
  drive : DriveV2
  pull : Pull
  outputEnable : Bool
  func : FunctionV2
  mode : ModeV2
  intMode : Nat
  intState : Bool
  intMask : Bool
  deriving DecidableEq

/-- The documented reset value of a v2 GPIO configuration register. -/
def GpioConfig.RESET_VALUE : GpioConfig :=
  { inputEnable := false, schmitt := false, drive := .drive0, pull := .none,
    outputEnable := false, func := .gpio, mode := .normal, intMode := 0,
    intState := false, intMask := true }

def GpioConfig.enable_input (c : GpioConfig) : GpioConfig :=
  { c with inputEnable := true }

def GpioConfig.disable_input (c : GpioConfig) : GpioConfig :=
  { c with inputEnable := false }

def GpioConfig.enable_output (c : GpioConfig) : GpioConfig :=
  { c with outputEnable := true }

def GpioConfig.disable_output (c : GpioConfig) : GpioConfig :=
  { c with outputEnable := false }

def GpioConfig.enable_schmitt (c : GpioConfig) : GpioConfig :=
  { c with schmitt := true }

def GpioConfig.disable_schmitt (c : GpioConfig) : GpioConfig :=
  { c with schmitt := false }

def GpioConfig.set_drive (c : GpioConfig) (d : DriveV2) : GpioConfig :=
  { c with drive := d }

def GpioConfig.set_pull (c : GpioConfig) (p : Pull) : GpioConfig :=
  { c with pull := p }

def GpioConfig.set_function (c : GpioConfig) (f : FunctionV2) : GpioConfig :=
  { c with func := f }

def GpioConfig.set_mode (c : GpioConfig) (m : ModeV2) : GpioConfig :=
  { c with mode := m }

def GpioConfig.set_interrupt_mode (c : GpioConfig) (m : Nat) : GpioConfig :=
  { c with intMode := m }

/-- Reads the interrupt-pending state bit of the configuration word. -/
def GpioConfig.has_interrupt (c : GpioConfig) : Bool :=
  c.intState

/-- Clears the interrupt-pending state of this pad.
Modelled from the spec: the interrupt clear accessor resolves the pending
interrupt-state bit of the pad. -/
def GpioConfig.clear_interrupt (c : GpioConfig) : GpioConfig :=
  { c with intState := false }

/-! ## The glb-v2 transition engine (gpio.rs, glb-v2 branches)

The v2 register file holds one dedicated configuration register per pad.
The transitions below are embedded from the glb-v2 branches of the
into functions of gpio.rs. -/

/-- The glb-v2 GPIO register file: one configuration register per pad. -/
structure GlbV2State where
  gpio_config : Nat → GpioConfig

/-- The fixed configuration word gpio.rs writes for UART signals
(UART_GPIO_CONFIG, gpio.rs lines 685 to 691). -/
def UART_GPIO_CONFIG : GpioConfig :=
  ((((GpioConfig.RESET_VALUE.enable_input.enable_output.enable_schmitt).set_drive
      .drive0).set_pull .up).set_function .uart)

namespace Pad

/-- gpio.rs into_uart (glb-v2): writes the fixed UART configuration word
to the configuration register of pad n. -/
def into_uart (n : Nat) (st : GlbV2State) : GlbV2State :=
  { gpio_config := upd st.gpio_config n UART_GPIO_CONFIG }

/-- gpio.rs into_mm_uart (glb-v2): the UART word with the multi-media
UART function code. -/
def into_mm_uart (n : Nat) (st : GlbV2State) : GlbV2State :=
  { gpio_config := upd st.gpio_config n (UART_GPIO_CONFIG.set_function .mmUart) }

/-- gpio.rs into_spi (glb-v2): fresh word from the reset value with input
enabled, output disabled, schmitt enabled, pull-up, drive 0 and the SPI
function code of instance I. -/
def into_spi (f : FunctionV2) (n : Nat) (st : GlbV2State) : GlbV2State :=
  { gpio_config := upd st.gpio_config n
      (((((GpioConfig.RESET_VALUE.enable_input.disable_output.enable_schmitt).set_pull
          .up).set_drive .drive0).set_function f)) }

/-- gpio.rs into_i2c (glb-v2): fresh word from the reset value with input
and output enabled, schmitt enabled, drive 0, pull-up and the I2C
function code of instance I. -/
def into_i2c (f : FunctionV2) (n : Nat) (st : GlbV2State) : GlbV2State :=
  { gpio_config := upd st.gpio_config n
      (((((GpioConfig.RESET_VALUE.enable_input.enable_output.enable_schmitt).set_drive
          .drive0).set_pull .up).set_function f)) }

/-- gpio.rs into_pull_up_output (glb-v2): read-modify-write of the
configuration register of pad n. -/
def into_pull_up_output (n : Nat) (st : GlbV2State) : GlbV2State :=
  { gpio_config := upd st.gpio_config n
      ((((((st.gpio_config n).set_function .gpio).set_mode
          .setClear).disable_input).enable_output).set_pull .up) }

/-- gpio.rs into_pull_down_output (glb-v2). -/
def into_pull_down_output (n : Nat) (st : GlbV2State) : GlbV2State :=
  { gpio_config := upd st.gpio_config n
      ((((((st.gpio_config n).set_function .gpio).set_mode
          .setClear).disable_input).enable_output).set_pull .down) }

/-- gpio.rs into_floating_output (glb-v2). -/
def into_floating_output (n : Nat) (st : GlbV2State) : GlbV2State :=
  { gpio_config := upd st.gpio_config n
      ((((((st.gpio_config n).set_function .gpio).set_mode
          .setClear).disable_input).enable_output).set_pull .none) }

/-- gpio.rs into_pull_up_input (glb-v2). -/
def into_pull_up_input (n : Nat) (st : GlbV2State) : GlbV2State :=
  { gpio_config := upd st.gpio_config n
      ((((((st.gpio_config n).set_function .gpio).set_mode
          .setClear).enable_input).disable_output).set_pull .up) }

/-- gpio.rs into_pull_down_input (glb-v2). -/
def into_pull_down_input (n : Nat) (st : GlbV2State) : GlbV2State :=
  { gpio_config := upd st.gpio_config n
      ((((((st.gpio_config n).set_function .gpio).set_mode
          .setClear).enable_input).disable_output).set_pull .down) }

/-- gpio.rs into_floating_input (glb-v2). -/
def into_floating_input (n : Nat) (st : GlbV2State) : GlbV2State :=
  { gpio_config := upd st.gpio_config n
      ((((((st.gpio_config n).set_function .gpio).set_mode
          .setClear).enable_input).disable_output).set_pull .none) }

/-- gpio.rs into_pull_up_pwm (glb-v2): fresh word from the reset value
with input disabled, output enabled, schmitt enabled, drive 0, pull-up
and the PWM function code of instance I. -/
def into_pull_up_pwm (f : FunctionV2) (n : Nat) (st : GlbV2State) : GlbV2State :=
  { gpio_config := upd st.gpio_config n
      (((((GpioConfig.RESET_VALUE.disable_input.enable_output.enable_schmitt).set_drive
          .drive0).set_pull .up).set_function f)) }

/-- gpio.rs into_pull_down_pwm (glb-v2). -/
def into_pull_down_pwm (f : FunctionV2) (n : Nat) (st : GlbV2State) : GlbV2State :=
  { gpio_config := upd st.gpio_config n
      (((((GpioConfig.RESET_VALUE.disable_input.enable_output.enable_schmitt).set_drive
          .drive0).set_pull .down).set_function f)) }

/-- gpio.rs into_floating_pwm (glb-v2). -/
def into_floating_pwm (f : FunctionV2) (n : Nat) (st : GlbV2State) : GlbV2State :=
  { gpio_config := upd st.gpio_config n
      (((((GpioConfig.RESET_VALUE.disable_input.enable_output.enable_schmitt).set_drive
          .drive0).set_pull .none).set_function f)) }

end Pad

/-- The six glb-v2 digital input and output role transitions of
gpio.rs, as one enumeration so properties can quantify over all. -/
inductive V2Digital
  | pullUpOutput
  | pullDownOutput
  | floatingOutput
  | pullUpInput
  | pullDownInput
  | floatingInput
  deriving DecidableEq

/-- The configuration word each glb-v2 digital transition computes from
the configuration word c it read, transcribed from the builder chains
of the glb-v2 branches of gpio.rs. -/
def v2DigitalWord : V2Digital → GpioConfig → GpioConfig
  | .pullUpOutput, c =>
      ((((c.set_function .gpio).set_mode .setClear).disable_input).enable_output).set_pull .up
  | .pullDownOutput, c =>
      ((((c.set_function .gpio).set_mode .setClear).disable_input).enable_output).set_pull .down
  | .floatingOutput, c =>
      ((((c.set_function .gpio).set_mode .setClear).disable_input).enable_output).set_pull .none
  | .pullUpInput, c =>
      ((((c.set_function .gpio).set_mode .setClear).enable_input).disable_output).set_pull .up
  | .pullDownInput, c =>
      ((((c.set_function .gpio).set_mode .setClear).enable_input).disable_output).set_pull .down
  | .floatingInput, c =>
      ((((c.set_function .gpio).set_mode .setClear).enable_input).disable_output).set_pull .none

/-- Dispatch a glb-v2 digital role transition on pad n. -/
def applyV2Digital : V2Digital → Nat → GlbV2State → GlbV2State
  | .pullUpOutput, n, st => Pad.into_pull_up_output n st
  | .pullDownOutput, n, st => Pad.into_pull_down_output n st
  | .floatingOutput, n, st => Pad.into_floating_output n st
  | .pullUpInput, n, st => Pad.into_pull_up_input n st
  | .pullDownInput, n, st => Pad.into_pull_down_input n st
  | .floatingInput, n, st => Pad.into_floating_input n st

/-- The glb-v2 alternate-function role transitions of gpio.rs, as one
enumeration so properties can quantify over all (the SPI, I2C and PWM
ones carry the function code of the selected peripheral instance). -/
inductive V2AltTransition
  | uartAlt
  | mmUartAlt
  | spiAlt (f : FunctionV2)
  | i2cAlt (f : FunctionV2)
  | pullUpPwm (f : FunctionV2)
  | pullDownPwm (f : FunctionV2)
  | floatingPwm (f : FunctionV2)
  deriving DecidableEq

/-- Dispatch a glb-v2 alternate-function role transition on pad n. -/
def applyV2Alt : V2AltTransition → Nat → GlbV2State → GlbV2State
  | .uartAlt, n, st => Pad.into_uart n st
  | .mmUartAlt, n, st => Pad.into_mm_uart n st
  | .spiAlt f, n, st => Pad.into_spi f n st
  | .i2cAlt f, n, st => Pad.into_i2c f n st
  | .pullUpPwm f, n, st => Pad.into_pull_up_pwm f n st
  | .pullDownPwm f, n, st => Pad.into_pull_down_pwm f n st
  | .floatingPwm f, n, st => Pad.into_floating_pwm f n st

/-! ## The glb-v1 packed register layout (gpio/pad_v1.rs)

On the legacy layout one 32-bit configuration register holds the
configuration of two adjacent pads: pad N lives in half N mod 2 of
register N div 2. Modelled from the spec: the glb module with the v1
field accessors is not among the sources; the spec states that every
accessor read-modify-writes only the sub-field owned by its pin index.
We model the 16-bit half owned by each pad with input-enable at bit 0,
schmitt at bit 1, drive at bits 2 to 3, pull at bits 4 to 5 and the
function-select code at bits 8 to 11. -/

/-- The bit field of width w starting at bit off of the word x. -/
def extractBits (x off w : Nat) : Nat :=
  x / 2 ^ off % 2 ^ w

/-- Overwrite the bit field of width w at offset off of a half-word. -/
def setBitsH (h off w v : Nat) : Nat :=
  h % 2 ^ off + v % 2 ^ w * 2 ^ off + h / 2 ^ (off + w) * 2 ^ (off + w)

/-- The 16-bit half of a 32-bit packed register owned by pad index idx. -/
def getHalf (x idx : Nat) : Nat :=
  if idx % 2 = 0 then x % 65536 else x / 65536 % 65536

/-- Replace the 16-bit half owned by pad index idx inside a 32-bit word. -/
def setHalf (x idx h : Nat) : Nat :=
  if idx % 2 = 0 then x / 65536 * 65536 + h % 65536
  else h % 65536 * 65536 + x % 65536

/-- A v1 field accessor: read-modify-write of one field inside the
half-word owned by pad index idx. -/
def v1_set_field (x idx off w v : Nat) : Nat :=
  setHalf x idx (setBitsH (getHalf x idx) off w v)

/-- Function-select code of the plain GPIO function on the v1 layout. -/
def GPIO_FUNCTION_V1 : Nat := 11

/-- Function-select code of the UART function on the v1 layout. -/
def UART_FUNCTION_V1 : Nat := 7

def v1_set_function (x idx code : Nat) : Nat := v1_set_field x idx 8 4 code

def v1_enable_input (x idx : Nat) : Nat := v1_set_field x idx 0 1 1

def v1_disable_input (x idx : Nat) : Nat := v1_set_field x idx 0 1 0

def v1_set_pull (x idx : Nat) (p : Pull) : Nat := v1_set_field x idx 4 2 p.code

def v1_enable_schmitt (x idx : Nat) : Nat := v1_set_field x idx 1 1 1

def v1_set_drive (x idx d : Nat) : Nat := v1_set_field x idx 2 2 d

/-- Clears bit n of a word, modelling val AND NOT (1 shl n). -/
def clearBit (x n : Nat) : Nat :=
  x - x / 2 ^ n % 2 * 2 ^ n

/-- The glb-v1 register file, with the registers pad_v1.rs touches. -/
structure Glbv1State where
  gpio_config : Nat → Nat
  gpio_output_enable : Nat
  gpio_input_value : Nat
  gpio_output_value : Nat
  gpio_interrupt_state : Nat
  gpio_interrupt_mask : Nat

namespace Padv1

/-- pad_v1.rs into_pull_up_output: read-modify-write of register N div 2
at half N mod 2, then a second write setting bit N of output-enable. -/
def into_pull_up_output (n : Nat) (st : Glbv1State) : Glbv1State :=
  let config := v1_set_pull
    (v1_disable_input (v1_set_function (st.gpio_config (n / 2)) (n % 2) GPIO_FUNCTION_V1) (n % 2))
    (n % 2) .up
  { st with gpio_config := upd st.gpio_config (n / 2) config,
            gpio_output_enable := st.gpio_output_enable ||| 1 <<< n }

/-- pad_v1.rs into_pull_down_output. -/
def into_pull_down_output (n : Nat) (st : Glbv1State) : Glbv1State :=
  let config := v1_set_pull
    (v1_disable_input (v1_set_function (st.gpio_config (n / 2)) (n % 2) GPIO_FUNCTION_V1) (n % 2))
    (n % 2) .down
  { st with gpio_config := upd st.gpio_config (n / 2) config,
            gpio_output_enable := st.gpio_output_enable ||| 1 <<< n }

/-- pad_v1.rs into_floating_output. -/
def into_floating_output (n : Nat) (st : Glbv1State) : Glbv1State :=
  let config := v1_set_pull
    (v1_disable_input (v1_set_function (st.gpio_config (n / 2)) (n % 2) GPIO_FUNCTION_V1) (n % 2))
    (n % 2) .none
  { st with gpio_config := upd st.gpio_config (n / 2) config,
            gpio_output_enable := st.gpio_output_enable ||| 1 <<< n }

/-- pad_v1.rs into_pull_up_input: clears bit N of output-enable. -/
def into_pull_up_input (n : Nat) (st : Glbv1State) : Glbv1State :=
  let config := v1_set_pull
    (v1_enable_input (v1_set_function (st.gpio_config (n / 2)) (n % 2) GPIO_FUNCTION_V1) (n % 2))
    (n % 2) .up
  { st with gpio_config := upd st.gpio_config (n / 2) config,
            gpio_output_enable := clearBit st.gpio_output_enable n }

/-- pad_v1.rs into_pull_down_input. -/
def into_pull_down_input (n : Nat) (st : Glbv1State) : Glbv1State :=
  let config := v1_set_pull
    (v1_enable_input (v1_set_function (st.gpio_config (n / 2)) (n % 2) GPIO_FUNCTION_V1) (n % 2))
    (n % 2) .down
  { st with gpio_config := upd st.gpio_config (n / 2) config,
            gpio_output_enable := clearBit st.gpio_output_enable n }

/-- pad_v1.rs into_floating_input. -/
def into_floating_input (n : Nat) (st : Glbv1State) : Glbv1State :=
  let config := v1_set_pull
    (v1_enable_input (v1_set_function (st.gpio_config (n / 2)) (n % 2) GPIO_FUNCTION_V1) (n % 2))
    (n % 2) .none
  { st with gpio_config := upd st.gpio_config (n / 2) config,
            gpio_output_enable := clearBit st.gpio_output_enable n }

/-- pad_v1.rs into_uart: computes the new word from the register read at
index N div 2, but, exactly as in the source at line 191, issues the
write to gpio_config at index N. -/
def into_uart (n : Nat) (st : Glbv1State) : Glbv1State :=
  let config := v1_set_pull
    (v1_enable_input (v1_set_function (st.gpio_config (n / 2)) (n % 2) UART_FUNCTION_V1) (n % 2))
    (n % 2) .none
  { st with gpio_config := upd st.gpio_config n config }

/-- pad_v1.rs InputPin is_high: an infallible level read. -/
def is_high (n : Nat) (st : Glbv1State) : Except Empty Bool :=
  .ok (st.gpio_input_value / 2 ^ n % 2 == 1)

/-- pad_v1.rs InputPin is_low. -/
def is_low (n : Nat) (st : Glbv1State) : Except Empty Bool :=
  .ok (st.gpio_input_value / 2 ^ n % 2 == 0)

/-- pad_v1.rs OutputPin set_high: an infallible level write. -/
def set_high (n : Nat) (st : Glbv1State) : Except Empty Glbv1State :=
  .ok { st with gpio_output_value := st.gpio_output_value ||| 1 <<< n }

/-- pad_v1.rs OutputPin set_low. -/
def set_low (n : Nat) (st : Glbv1State) : Except Empty Glbv1State :=
  .ok { st with gpio_output_value := clearBit st.gpio_output_value n }

end Padv1

/-- The role-transition operations of the packed v1 layout, as one
enumeration so properties can quantify over every transition. -/
inductive V1Transition
  | pullUpOutput
  | pullDownOutput
  | floatingOutput
  | pullUpInput
  | pullDownInput
  | floatingInput
  | uart
  deriving DecidableEq

/-- Dispatch a v1 role transition on pad n. -/
def applyV1 : V1Transition → Nat → Glbv1State → Glbv1State
  | .pullUpOutput, n, st => Padv1.into_pull_up_output n st
  | .pullDownOutput, n, st => Padv1.into_pull_down_output n st
  | .floatingOutput, n, st => Padv1.into_floating_output n st
  | .pullUpInput, n, st => Padv1.into_pull_up_input n st
  | .pullDownInput, n, st => Padv1.into_pull_down_input n st
  | .floatingInput, n, st => Padv1.into_floating_input n st
  | .uart, n, st => Padv1.into_uart n st

/-! ## The interrupt-to-future bridge (gpio/input_async.rs)

Embedded for the glb-v2 configuration (the glb-v1 arm of on_interrupt is
an unfinished todo in the source). Wakers are identified by numbers; a
waker table slot is an optional waker, and take removes it. Invoking
wake is recorded as an event (pad index, waker) so a property can count
invocations. -/

/-- The fixed size of the waker table in input_async.rs. -/
def MAX_PADS : Nat := 46

/-- The waker table plus the glb-v2 register file the bridge reads:
pads is the per-pad slot array, glb the per-pad configuration registers. -/
structure GpioState where
  pads : Nat → Option Nat
  glb : Nat → GpioConfig

/-- The loop body of GpioState on_interrupt over the given pad indices:
for each pad, take the registered waker if any; when one was registered,
wake it if the pad has a pending interrupt, then clear the pending bit.
When no waker is registered nothing at all is done for the pad. -/
def on_interrupt_go (st : GpioState) (ids : List Nat) (events : List (Nat × Nat)) :
    GpioState × List (Nat × Nat) :=
  match ids with
  | [] => (st, events)
  | pad_id :: rest =>
    match st.pads pad_id with
    | Option.none => on_interrupt_go st rest events
    | Option.some waker =>
      let events1 := if (st.glb pad_id).has_interrupt
        then events ++ [(pad_id, waker)] else events
      let st1 : GpioState :=
        { pads := upd st.pads pad_id Option.none,
          glb := upd st.glb pad_id ((st.glb pad_id).clear_interrupt) }
      on_interrupt_go st1 rest events1

/-- GpioState on_interrupt: one pass over all pad slots in index order,
returning the final state and the list of wake invocations issued. -/
def on_interrupt (st : GpioState) : GpioState × List (Nat × Nat) :=
  on_interrupt_go st (List.range MAX_PADS) []

/-- The wake invocations issued for pad index k. -/
def eventsFor (k : Nat) (evs : List (Nat × Nat)) : List (Nat × Nat) :=
  evs.filter (fun e => e.1 == k)

/-- Result of polling a future. -/
inductive PollResult
  | ready
  | pending
  deriving DecidableEq

/-- InputFuture poll (input_async.rs lines 67 to 74): if the pad has a
pending interrupt return Ready, otherwise register the supplied waker in
the slot of pad n (replacing any previous one) and return Pending. -/
def InputFuture.poll (st : GpioState) (n : Nat) (waker : Nat) :
    PollResult × GpioState :=
  if (st.glb n).has_interrupt then (.ready, st)
  else (.pending, { st with pads := upd st.pads n (Option.some waker) })

/-! ## The UART pad composition layer (uart.rs)

A composition member is a GPIO pad in Uart role paired with a signal
multiplexer; we record the pad index and the multiplexer index. The
closed set of composition shapes mirrors the Pads trait implementation
blocks of uart.rs, and the four capability constants are transcribed
from those blocks. -/

/-- One (GPIO pad in Uart role, UART signal multiplexer) pair. -/
structure UartPadPair where
  pin : Nat
  sig : Nat
  deriving DecidableEq

/-- HasUartSignal (uart.rs lines 925 to 970): pad N is wired to UART
signal I exactly when N is at most 45 and I equals N mod 12. -/
def hasUartSignal (n i : Nat) : Bool :=
  n ≤ 45 && i == n % 12

/-- The closed enumeration of UART pad composition shapes accepted by
the Pads trait implementation blocks of uart.rs. -/
inductive UartPads
  | txdOnly (tx : UartPadPair)
  | txdRxd (tx rx : UartPadPair)
  | txdCts (tx cts : UartPadPair)
  | quad (tx rx rts cts : UartPadPair)
  | mm1 (n1 : Nat)
  | mm2 (n1 n2 : Nat)
  | mm3 (n1 n2 n3 : Nat)
  | mm4 (n1 n2 n3 n4 : Nat)
  deriving DecidableEq

/-- The trait bounds of the corresponding implementation block: every
pad with a multiplexer must satisfy HasUartSignal for its signal index
(multi-media UART pads carry no multiplexer). -/
def validPads : UartPads → Bool
  | .txdOnly tx => hasUartSignal tx.pin tx.sig
  | .txdRxd tx rx => hasUartSignal tx.pin tx.sig && hasUartSignal rx.pin rx.sig
  | .txdCts tx cts => hasUartSignal tx.pin tx.sig && hasUartSignal cts.pin cts.sig
  | .quad tx rx rts cts =>
      hasUartSignal tx.pin tx.sig && hasUartSignal rx.pin rx.sig &&
      hasUartSignal rts.pin rts.sig && hasUartSignal cts.pin cts.sig
  | .mm1 _ => true
  | .mm2 _ _ => true
  | .mm3 _ _ _ => true
  | .mm4 _ _ _ _ => true

/-- The RTS capability constant of each Pads implementation block,
transcribed from uart.rs (the quad value is at line 1135). -/
def padsRTS : UartPads → Bool
  | .txdOnly _ => false
  | .txdRxd _ _ => false
  | .txdCts _ _ => false
  | .quad _ _ _ _ => false
  | .mm1 n1 => n1 % 4 == 2
  | .mm2 n1 n2 => n1 % 4 == 2 || n2 % 4 == 2
  | .mm3 n1 n2 n3 => n1 % 4 == 2 || n2 % 4 == 2 || n3 % 4 == 2
  | .mm4 n1 n2 n3 n4 => n1 % 4 == 2 || n2 % 4 == 2 || n3 % 4 == 2 || n4 % 4 == 2

/-- The CTS capability constant of each Pads implementation block. -/
def padsCTS : UartPads → Bool
  | .txdOnly _ => false
  | .txdRxd _ _ => false
  | .txdCts _ _ => true
  | .quad _ _ _ _ => true
  | .mm1 n1 => n1 % 4 == 3
  | .mm2 n1 n2 => n1 % 4 == 3 || n2 % 4 == 3
  | .mm3 n1 n2 n3 => n1 % 4 == 3 || n2 % 4 == 3 || n3 % 4 == 3
  | .mm4 n1 n2 n3 n4 => n1 % 4 == 3 || n2 % 4 == 3 || n3 % 4 == 3 || n4 % 4 == 3

/-- The TXD capability constant of each Pads implementation block. -/
def padsTXD : UartPads → Bool
  | .txdOnly _ => true
  | .txdRxd _ _ => true
  | .txdCts _ _ => true
  | .quad _ _ _ _ => true
  | .mm1 n1 => n1 % 4 == 0
  | .mm2 n1 n2 => n1 % 4 == 0 || n2 % 4 == 0
  | .mm3 n1 n2 n3 => n1 % 4 == 0 || n2 % 4 == 0 || n3 % 4 == 0
  | .mm4 n1 n2 n3 n4 => n1 % 4 == 0 || n2 % 4 == 0 || n3 % 4 == 0 || n4 % 4 == 0

/-- The RXD capability constant of each Pads implementation block
(the quad value is at line 1138 of uart.rs). -/
def padsRXD : UartPads → Bool
  | .txdOnly _ => false
  | .txdRxd _ _ => true
  | .txdCts _ _ => false
  | .quad _ _ _ _ => false
  | .mm1 n1 => n1 % 4 == 1
  | .mm2 n1 n2 => n1 % 4 == 1 || n2 % 4 == 1
  | .mm3 n1 n2 n3 => n1 % 4 == 1 || n2 % 4 == 1 || n3 % 4 == 1
  | .mm4 n1 n2 n3 n4 => n1 % 4 == 1 || n2 % 4 == 1 || n3 % 4 == 1 || n4 % 4 == 1

/-- Transmit half of a split serial structure. -/
structure TransmitHalf (U P : Type) where
  uart : U
  pads : P

/-- Receive half of a split serial structure. -/
structure ReceiveHalf (U P : Type) where
  uart : U
  pads : P

/-- uart.rs from_pads: duplicates the register-block handle into both
halves and hands the tx pads to the transmit half and the rx pads to
the receive half. -/
def from_pads {U TX RX : Type} (uart : U) (tx : TX) (rx : RX) :
    TransmitHalf U TX × ReceiveHalf U RX :=
  (⟨uart, tx⟩, ⟨uart, rx⟩)

/-- split of the TXD-only composition (uart.rs lines 1021 to 1024). -/
def split_txd_only {U : Type} (tx : UartPadPair) (uart : U) :
    TransmitHalf U UartPadPair × ReceiveHalf U Unit :=
  from_pads uart tx ()

/-- split of the TXD plus RXD composition (uart.rs lines 1056 to 1059). -/
def split_txd_rxd {U : Type} (tx rx : UartPadPair) (uart : U) :
    TransmitHalf U UartPadPair × ReceiveHalf U UartPadPair :=
  from_pads uart tx rx

/-- split of the full quad composition (uart.rs lines 1155 to 1158):
the transmit half receives the TXD and CTS pairs, the receive half the
RXD and RTS pairs. -/
def split_quad {U : Type} (tx rx rts cts : UartPadPair) (uart : U) :
    TransmitHalf U (UartPadPair × UartPadPair) ×
    ReceiveHalf U (UartPadPair × UartPadPair) :=
  from_pads uart (tx, cts) (rx, rts)

/-! ## The managed serial constructor (uart.rs Serial freerun) -/

inductive BitOrder
  | lsbFirst
  | msbFirst
  deriving DecidableEq

inductive Parity
  | none
  | even
  | odd
  deriving DecidableEq

inductive StopBits
  | zeroPointFive
  | one
  | onePointFive
  | two
  deriving DecidableEq

inductive WordLength
  | five
  | six
  | seven
  | eight
  deriving DecidableEq

/-- The serial configuration handed to freerun; baudrates in Bd. -/
structure Config where
  transmit_baudrate : Nat
  receive_baudrate : Nat
  bit_order : BitOrder
  parity : Parity
  stop_bits : StopBits
  word_length : WordLength
  deriving DecidableEq

/-- The register contents freerun writes into the UART block. -/
structure SerialState where
  bit_period_tx : Nat
  bit_period_rx : Nat
  bit_order : BitOrder
  tx_freerun : Bool
  tx_parity : Parity
  tx_stop_bits : StopBits
  tx_word_length : WordLength
  txd_enabled : Bool
  cts_enabled : Bool
  rx_parity : Parity
  rx_word_length : WordLength
  rxd_enabled : Bool
  deriving DecidableEq

/-- Serial freerun (uart.rs lines 1274 to 1321). A Rust panic is
modelled as an error value carrying the panic message. The clock helper
uart_clock is not among the sources, so, modelled from the spec, the
clock source for the selected UART is an optional input, absent exactly
when the expect call in the source would panic. -/
def Serial.freerun (uart_clock : Option Nat) (config : Config) (pads : UartPads) :
    Except String SerialState :=
  match uart_clock with
  | Option.none => .error "a valid UART clock source"
  | Option.some c =>
    let transmit_interval := c / config.transmit_baudrate
    let receive_interval := c / config.receive_baudrate
    if ¬ (1 ≤ transmit_interval ∧ transmit_interval ≤ 65535) then
      .error "Impossible transmit baudrate!"
    else if ¬ (1 ≤ receive_interval ∧ receive_interval ≤ 65535) then
      .error "Impossible receive baudrate!"
    else
      .ok { bit_period_tx := transmit_interval
            bit_period_rx := receive_interval
            bit_order := config.bit_order
            tx_freerun := true
            tx_parity := config.parity
            tx_stop_bits := config.stop_bits
            tx_word_length := config.word_length
            txd_enabled := padsTXD pads
            cts_enabled := padsCTS pads
            rx_parity := config.parity
            rx_word_length := config.word_length
            rxd_enabled := padsRXD pads }

/-! ## Lemmas about the packed v1 register halves -/

/-- Replacing the half owned by one pad leaves the half owned by the
other pad of the same register unchanged. -/
theorem getHalf_setHalf_ne (x idx h s : Nat) (hne : s % 2 ≠ idx % 2) :
    getHalf (setHalf x idx h) s = getHalf x s := by
  rcases Nat.mod_two_eq_zero_or_one idx with h0 | h0
  · have h1 : s % 2 = 1 := by omega
    simp only [getHalf, setHalf, h0, h1, if_pos, if_neg, one_ne_zero]
    simp only [reduceIte]
    omega
  · have h1 : s % 2 = 0 := by omega
    simp only [getHalf, setHalf, h0, h1, one_ne_zero, reduceIte]
    omega

/-- A v1 field accessor only touches the half owned by its pad index. -/
theorem getHalf_v1_set_field_ne (x idx off w v s : Nat) (hne : s % 2 ≠ idx % 2) :
    getHalf (v1_set_field x idx off w v) s = getHalf x s :=
  getHalf_setHalf_ne x idx _ s hne

/-- The 16 bits at offset 16 times s of a packed register are exactly
the half owned by pad parity s. -/
theorem extractBits_16_getHalf (x s : Nat) (hs : s < 2) :
    extractBits x (16 * s) 16 = getHalf x s := by
  interval_cases s <;> norm_num [extractBits, getHalf]

/-- Claim C3: on the packed two-pins-per-register v1 layout, every role
transition on pad N (the outputs, the inputs and the uart transition)
leaves the 16 configuration bits owned by the sibling pad N xor 1, which
lives in the same configuration register N div 2, bit-for-bit unchanged,
for every pad index and every initial register contents. -/
theorem C3_sibling_bits_preserved (t : V1Transition) (n : Nat) (st : Glbv1State) :
    extractBits ((applyV1 t n st).gpio_config (n / 2)) (16 * ((n + 1) % 2)) 16
      = extractBits (st.gpio_config (n / 2)) (16 * ((n + 1) % 2)) 16 := by
  have hs : (n + 1) % 2 < 2 := Nat.mod_lt _ (by omega)
  have hne : (n + 1) % 2 % 2 ≠ n % 2 % 2 := by omega
  rw [extractBits_16_getHalf _ _ hs, extractBits_16_getHalf _ _ hs]
  cases t <;>
    simp only [applyV1, Padv1.into_pull_up_output, Padv1.into_pull_down_output,
      Padv1.into_floating_output, Padv1.into_pull_up_input, Padv1.into_pull_down_input,
      Padv1.into_floating_input, Padv1.into_uart, v1_set_pull, v1_enable_input,
      v1_disable_input, v1_set_function]
  case uart =>
    by_cases hn : n = 0
    · subst hn
      have h02 : (0 : Nat) / 2 = 0 := rfl
      rw [h02, upd_same, getHalf_v1_set_field_ne _ _ _ _ _ _ hne,
        getHalf_v1_set_field_ne _ _ _ _ _ _ hne, getHalf_v1_set_field_ne _ _ _ _ _ _ hne]
    · rw [upd_other _ _ _ _ (by omega)]
  all_goals
    rw [upd_same, getHalf_v1_set_field_ne _ _ _ _ _ _ hne,
      getHalf_v1_set_field_ne _ _ _ _ _ _ hne, getHalf_v1_set_field_ne _ _ _ _ _ _ hne]

/-! ## Lemmas about the interrupt service routine -/

theorem eventsFor_append (k : Nat) (a b : List (Nat × Nat)) :
    eventsFor k (a ++ b) = eventsFor k a ++ eventsFor k b := by
  simp [eventsFor, List.filter_append]

theorem eventsFor_single_ne (k i w : Nat) (h : i ≠ k) : eventsFor k [(i, w)] = [] := by
  simp [eventsFor, h]

theorem eventsFor_single_eq (k w : Nat) : eventsFor k [(k, w)] = [(k, w)] := by
  simp [eventsFor]

/-- Pads whose index is not visited are untouched by the service loop,
and no wake is issued for them. -/
theorem on_interrupt_go_not_mem (k : Nat) :
    ∀ (ids : List Nat), k ∉ ids → ∀ (st : GpioState) (events : List (Nat × Nat)),
      (on_interrupt_go st ids events).1.pads k = st.pads k ∧
      (on_interrupt_go st ids events).1.glb k = st.glb k ∧
      eventsFor k (on_interrupt_go st ids events).2 = eventsFor k events := by
  intro ids
  induction ids with
  | nil => intro _ st events; exact ⟨rfl, rfl, rfl⟩
  | cons i rest ih =>
    intro hk st events
    rw [List.mem_cons, not_or] at hk
    obtain ⟨hki, hkr⟩ := hk
    cases hpad : st.pads i with
    | none =>
      simp only [on_interrupt_go, hpad]
      exact ih hkr st events
    | some w =>
      simp only [on_interrupt_go, hpad]
      obtain ⟨h1, h2, h3⟩ := ih hkr
        { pads := upd st.pads i Option.none,
          glb := upd st.glb i ((st.glb i).clear_interrupt) }
        (if (st.glb i).has_interrupt then events ++ [(i, w)] else events)
      refine ⟨?_, ?_, ?_⟩
      · rw [h1]; exact upd_other _ _ _ _ hki
      · rw [h2]; exact upd_other _ _ _ _ hki
      · rw [h3]
        by_cases hInt : (st.glb i).has_interrupt
        · simp [hInt, eventsFor_append, eventsFor_single_ne k i w (Ne.symm hki)]
        · simp [hInt]

/-- What one pass of the service loop does at a visited pad index k,
depending on whether a waker is registered in slot k: with no waker it
does nothing at all for that pad; with a registered waker it empties the
slot, clears the pending bit, and issues exactly one wake if and only if
the pending bit was set. -/
theorem on_interrupt_go_mem (k : Nat) :
    ∀ (ids : List Nat), ids.Nodup → k ∈ ids →
      ∀ (st : GpioState) (events : List (Nat × Nat)),
      (st.pads k = Option.none →
        (on_interrupt_go st ids events).1.pads k = Option.none ∧
        (on_interrupt_go st ids events).1.glb k = st.glb k ∧
        eventsFor k (on_interrupt_go st ids events).2 = eventsFor k events) ∧
      (∀ w, st.pads k = Option.some w →
        (on_interrupt_go st ids events).1.pads k = Option.none ∧
        (on_interrupt_go st ids events).1.glb k = (st.glb k).clear_interrupt ∧
        eventsFor k (on_interrupt_go st ids events).2 =
          eventsFor k events ++
            (if (st.glb k).has_interrupt then [(k, w)] else [])) := by
  intro ids
  induction ids with
  | nil => intro _ hk; exact absurd hk (List.not_mem_nil k)
  | cons i rest ih =>
    intro hnd hk st events
    rw [List.nodup_cons] at hnd
    obtain ⟨hir, hndr⟩ := hnd
    by_cases hki : k = i
    · subst hki
      constructor
      · intro hnone
        simp only [on_interrupt_go, hnone]
        obtain ⟨h1, h2, h3⟩ := on_interrupt_go_not_mem k rest hir st events
        exact ⟨h1.trans hnone, h2, h3⟩
      · intro w hw
        simp only [on_interrupt_go, hw]
        obtain ⟨h1, h2, h3⟩ := on_interrupt_go_not_mem k rest hir
          { pads := upd st.pads k Option.none,
            glb := upd st.glb k ((st.glb k).clear_interrupt) }
          (if (st.glb k).has_interrupt then events ++ [(k, w)] else events)
        have hps : (⟨upd st.pads k Option.none,
            upd st.glb k ((st.glb k).clear_interrupt)⟩ : GpioState).pads k
            = Option.none := upd_same _ _ _
        have hgs : (⟨upd st.pads k Option.none,
            upd st.glb k ((st.glb k).clear_interrupt)⟩ : GpioState).glb k
            = (st.glb k).clear_interrupt := upd_same _ _ _
        refine ⟨h1.trans hps, h2.trans hgs, ?_⟩
        rw [h3]
        by_cases hInt : (st.glb k).has_interrupt
        · simp [hInt, eventsFor_append, eventsFor_single_eq]
        · simp [hInt]
    · have hkr : k ∈ rest := by
        rcases List.mem_cons.mp hk with h | h
        · exact absurd h hki
        · exact h
      cases hpad : st.pads i with
      | none =>
        simp only [on_interrupt_go, hpad]
        exact ih hndr hkr st events
      | some wi =>
        simp only [on_interrupt_go, hpad]
        have hpk : (⟨upd st.pads i Option.none,
            upd st.glb i ((st.glb i).clear_interrupt)⟩ : GpioState).pads k
            = st.pads k := upd_other _ _ _ _ hki
        have hgk : (⟨upd st.pads i Option.none,
            upd st.glb i ((st.glb i).clear_interrupt)⟩ : GpioState).glb k
            = st.glb k := upd_other _ _ _ _ hki
        have hev : eventsFor k
            (if (st.glb i).has_interrupt then events ++ [(i, wi)] else events)
            = eventsFor k events := by
          by_cases hInt : (st.glb i).has_interrupt
          · simp [hInt, eventsFor_append, eventsFor_single_ne k i wi (Ne.symm hki)]
          · simp [hInt]
        have hres := ih hndr hkr
          { pads := upd st.pads i Option.none,
            glb := upd st.glb i ((st.glb i).clear_interrupt) }
          (if (st.glb i).has_interrupt then events ++ [(i, wi)] else events)
        constructor
        · intro hnone
          obtain ⟨a, b, c⟩ := hres.1 (hpk.trans hnone)
          exact ⟨a, by rw [b, hgk], by rw [c, hev]⟩
        · intro w hw
          obtain ⟨a, b, c⟩ := hres.2 w (hpk.trans hw)
          refine ⟨a, by rw [b, hgk], ?_⟩
          rw [c, hev, hgk]

/-- Claim C7: if a waker is registered in slot k and the pending bit of
pad k is set, one invocation of on_interrupt wakes that waker exactly
once (the wake events issued for pad k are exactly one event carrying
that waker) and leaves slot k empty. -/
theorem C7_wake_once (st : GpioState) (k w : Nat) (hk : k < MAX_PADS)
    (hreg : st.pads k = Option.some w) (hint : (st.glb k).has_interrupt = true) :
    (on_interrupt st).1.pads k = Option.none ∧
    eventsFor k (on_interrupt st).2 = [(k, w)] := by
  have h := (on_interrupt_go_mem k (List.range MAX_PADS) (List.nodup_range _)
    (List.mem_range.mpr hk) st []).2 w hreg
  refine ⟨h.1, ?_⟩
  have h3 := h.2.2
  rw [hint] at h3
  simpa [on_interrupt, eventsFor] using h3

/-- Witness state for claim C7: a waker (number 7) registered for pad 3
and the pending bit of every pad set. -/
def stC7 : GpioState :=
  { pads := fun i => if i = 3 then Option.some 7 else Option.none,
    glb := fun _ => { GpioConfig.RESET_VALUE with intState := true } }

theorem C7_wake_once_witness :
    (on_interrupt stC7).1.pads 3 = Option.none ∧
    eventsFor 3 (on_interrupt stC7).2 = [(3, 7)] :=
  C7_wake_once stC7 3 7 (by decide) rfl rfl

/-- Claim C10: if a waker is registered in slot k but the pending bit of
pad k is not set, on_interrupt removes the waker without waking it: the
slot is empty afterwards, no wake event is issued for pad k, and a
second invocation issues no wake for pad k either. -/
theorem C10_stale_waker_dropped (st : GpioState) (k w : Nat) (hk : k < MAX_PADS)
    (hreg : st.pads k = Option.some w) (hint : (st.glb k).has_interrupt = false) :
    (on_interrupt st).1.pads k = Option.none ∧
    eventsFor k (on_interrupt st).2 = [] ∧
    eventsFor k (on_interrupt (on_interrupt st).1).2 = [] := by
  have h := (on_interrupt_go_mem k (List.range MAX_PADS) (List.nodup_range _)
    (List.mem_range.mpr hk) st []).2 w hreg
  have h3 := h.2.2
  rw [hint] at h3
  refine ⟨h.1, by simpa [on_interrupt, eventsFor] using h3, ?_⟩
  have h2 := (on_interrupt_go_mem k (List.range MAX_PADS) (List.nodup_range _)
    (List.mem_range.mpr hk) (on_interrupt st).1 []).1 h.1
  simpa [on_interrupt, eventsFor] using h2.2.2

/-- Witness state for claim C10: a waker (number 9) registered for pad 5
with no pending bit set anywhere. -/
def stC10 : GpioState :=
  { pads := fun i => if i = 5 then Option.some 9 else Option.none,
    glb := fun _ => GpioConfig.RESET_VALUE }

theorem C10_stale_waker_dropped_witness :
    (on_interrupt stC10).1.pads 5 = Option.none ∧
    eventsFor 5 (on_interrupt stC10).2 = [] ∧
    eventsFor 5 (on_interrupt (on_interrupt stC10).1).2 = [] :=
  C10_stale_waker_dropped stC10 5 9 (by decide) rfl rfl

/-- Counterexample state for claim C2: no waker registered anywhere and
the pending bit of pad 3 set. -/
def stC2 : GpioState :=
  { pads := fun _ => Option.none,
    glb := fun i => if i = 3 then { GpioConfig.RESET_VALUE with intState := true }
      else GpioConfig.RESET_VALUE }

/-- Counterexample to claim C2 as stated: with the pending bit of pad 3
set and no waker registered in slot 3, on_interrupt does not clear the
pending bit of pad 3 — the clear in the source is only reached when a
waker was registered. -/
theorem C2_counterexample :
    stC2.pads 3 = Option.none ∧ (stC2.glb 3).has_interrupt = true ∧
    ¬ ((on_interrupt stC2).1.glb 3).has_interrupt = false := by
  decide

/-- Claim C2, amended: if no waker is registered in slot k, on_interrupt
leaves both the slot and the whole configuration register of pad k (its
pending bit included) unchanged, issues no wake for pad k, and does not
panic; the pending bit is cleared only when a waker was registered. -/
theorem C2_no_waker (st : GpioState) (k : Nat) (hk : k < MAX_PADS)
    (hnone : st.pads k = Option.none) :
    (on_interrupt st).1.pads k = Option.none ∧
    (on_interrupt st).1.glb k = st.glb k ∧
    eventsFor k (on_interrupt st).2 = [] := by
  have h := (on_interrupt_go_mem k (List.range MAX_PADS) (List.nodup_range _)
    (List.mem_range.mpr hk) st []).1 hnone
  exact ⟨h.1, h.2.1, by simpa [on_interrupt, eventsFor] using h.2.2⟩

theorem C2_no_waker_witness :
    (on_interrupt stC2).1.pads 3 = Option.none ∧
    (on_interrupt stC2).1.glb 3 = stC2.glb 3 ∧
    eventsFor 3 (on_interrupt stC2).2 = [] :=
  C2_no_waker stC2 3 (by decide) rfl

/-- Claim C8: every poll of the interrupt-wait future either finds the
interrupt flag of the pad set and returns Ready with the state
unchanged, or finds it clear, registers the supplied waker in the slot
of that pad and returns Pending; these are the only behaviours. -/
theorem C8_poll_dichotomy (st : GpioState) (n waker : Nat) :
    ((st.glb n).has_interrupt = true ∧ InputFuture.poll st n waker = (.ready, st)) ∨
    ((st.glb n).has_interrupt = false ∧ InputFuture.poll st n waker =
      (.pending, { st with pads := upd st.pads n (Option.some waker) })) := by
  by_cases h : (st.glb n).has_interrupt = true
  · exact Or.inl ⟨h, by simp [InputFuture.poll, h]⟩
  · have hf : (st.glb n).has_interrupt = false := by
      cases hh : (st.glb n).has_interrupt
      · rfl
      · exact absurd hh h
    exact Or.inr ⟨hf, by simp [InputFuture.poll, hf]⟩

/-! ## The capability truth table and the split partition -/

/-- Claim C1 (the quad row fails): the TXD-only and the TXD plus RXD
composition shapes derive the documented capability tuples for all
admitted indices, but the full RTS, CTS, TXD, RXD quad composition
derives (false, true, true, false) — the constants of the TXD plus CTS
implementation block — instead of the documented (true, true, true,
true); evaluated also at the concrete quad on pads 0 to 3 with signal
multiplexers 0 to 3, which the trait bounds admit. -/
theorem C1_capability_truth_table :
    (∀ tx : UartPadPair,
      (padsRTS (.txdOnly tx), padsCTS (.txdOnly tx), padsTXD (.txdOnly tx),
        padsRXD (.txdOnly tx)) = (false, false, true, false)) ∧
    (∀ tx rx : UartPadPair,
      (padsRTS (.txdRxd tx rx), padsCTS (.txdRxd tx rx), padsTXD (.txdRxd tx rx),
        padsRXD (.txdRxd tx rx)) = (false, false, true, true)) ∧
    (∀ tx rx rts cts : UartPadPair,
      (padsRTS (.quad tx rx rts cts), padsCTS (.quad tx rx rts cts),
        padsTXD (.quad tx rx rts cts), padsRXD (.quad tx rx rts cts))
        = (false, true, true, false)) ∧
    validPads (.quad ⟨0, 0⟩ ⟨1, 1⟩ ⟨2, 2⟩ ⟨3, 3⟩) = true ∧
    (padsRTS (.quad ⟨0, 0⟩ ⟨1, 1⟩ ⟨2, 2⟩ ⟨3, 3⟩),
      padsCTS (.quad ⟨0, 0⟩ ⟨1, 1⟩ ⟨2, 2⟩ ⟨3, 3⟩),
      padsTXD (.quad ⟨0, 0⟩ ⟨1, 1⟩ ⟨2, 2⟩ ⟨3, 3⟩),
      padsRXD (.quad ⟨0, 0⟩ ⟨1, 1⟩ ⟨2, 2⟩ ⟨3, 3⟩)) = (false, true, true, false) := by
  exact ⟨fun tx => rfl, fun tx rx => rfl, fun tx rx rts cts => rfl, by decide, rfl⟩

/-- Claim C9: every split that produces a transmit half and a receive
half places the shared register-block handle into both halves and
partitions the pads disjointly: the quad sends the TXD and CTS pairs to
the transmit half and the RXD and RTS pairs to the receive half with no
pad in both halves, the TXD plus RXD pair splits likewise, and the
TXD-only shape gives the receive half no pads at all. -/
theorem C9_split_partition {U : Type} (uart : U) (tx rx rts cts : UartPadPair)
    (hd : ([tx.pin, rx.pin, rts.pin, cts.pin] : List Nat).Nodup) :
    (split_quad tx rx rts cts uart).1.uart = uart ∧
    (split_quad tx rx rts cts uart).2.uart = uart ∧
    (split_quad tx rx rts cts uart).1.pads = (tx, cts) ∧
    (split_quad tx rx rts cts uart).2.pads = (rx, rts) ∧
    (∀ p : Nat, p ∈ ([tx.pin, cts.pin] : List Nat) →
      p ∉ ([rx.pin, rts.pin] : List Nat)) ∧
    (split_txd_rxd tx rx uart).1.uart = uart ∧
    (split_txd_rxd tx rx uart).2.uart = uart ∧
    (split_txd_rxd tx rx uart).1.pads = tx ∧
    (split_txd_rxd tx rx uart).2.pads = rx ∧
    tx.pin ≠ rx.pin ∧
    (split_txd_only tx uart).1.uart = uart ∧
    (split_txd_only tx uart).2.uart = uart ∧
    (split_txd_only tx uart).1.pads = tx ∧
    (split_txd_only tx uart).2.pads = () := by
  simp only [List.nodup_cons, List.mem_cons, List.not_mem_nil, or_false, not_or,
    List.nodup_nil, and_true] at hd
  obtain ⟨⟨htxrx, htxrts, htxcts⟩, ⟨hrxrts, hrxcts⟩, hrtscts⟩ := hd
  refine ⟨rfl, rfl, rfl, rfl, ?_, rfl, rfl, rfl, rfl, htxrx, rfl, rfl, rfl, rfl⟩
  intro p hp hq
  simp only [List.mem_cons, List.not_mem_nil, or_false] at hp hq
  rcases hp with rfl | rfl <;> rcases hq with h | h <;> tauto

theorem C9_split_partition_witness :
    (split_quad ⟨0, 0⟩ ⟨1, 1⟩ ⟨2, 2⟩ ⟨3, 3⟩ (0 : Nat)).1.pads = (⟨0, 0⟩, ⟨3, 3⟩) :=
  (C9_split_partition (0 : Nat) ⟨0, 0⟩ ⟨1, 1⟩ ⟨2, 2⟩ ⟨3, 3⟩ (by decide)).2.2.1

/-! ## The transition write discipline (claims C4 and C5) -/

/-- Counterexample state for claim C4: every v2 configuration register
holds the reset value with interrupt mode field 5. -/
def stC4 : GlbV2State :=
  { gpio_config := fun _ => { GpioConfig.RESET_VALUE with intMode := 5 } }

/-- Counterexample to claim C4 as stated: the glb-v2 into_uart
transition does not read the current hardware configuration at all; it
writes a fixed word derived from the reset value, so a configuration
field it does not set (the interrupt mode, 5 before the transition) is
not taken from the pre-transition hardware state (it is 0 afterwards). -/
theorem C4_counterexample :
    ((Pad.into_uart 0 stC4).gpio_config 0).intMode ≠ (stC4.gpio_config 0).intMode := by
  decide

/-- Claim C4, amended: every glb-v2 digital input and output transition
(the six into pull-up, pull-down and floating output and input
operations) computes its word by reading the current configuration of
the pad, sets the function-select, mode, input-enable, output-enable
and pull fields, and issues exactly one register write, so the fields
it does not set (schmitt, drive and the interrupt fields) are taken
from the pre-transition hardware state; every glb-v2 alternate-function
transition (uart, mm-uart, spi, i2c and the three pwm ones) writes one
fixed configuration word derived from the reset value, independent of
the pre-transition state; the six packed-layout v1 output and input
transitions read-modify-write the shared configuration register at
index N div 2 and issue a second register write, to the shared
output-enable register, while the v1 uart transition issues a single
configuration-register write (to index N) and leaves output-enable
untouched. -/
theorem C4_transition_write_discipline :
    (∀ (t : V2Digital) (n : Nat) (st : GlbV2State),
      (applyV2Digital t n st).gpio_config
          = upd st.gpio_config n (v2DigitalWord t (st.gpio_config n)) ∧
      ((applyV2Digital t n st).gpio_config n).schmitt = (st.gpio_config n).schmitt ∧
      ((applyV2Digital t n st).gpio_config n).drive = (st.gpio_config n).drive ∧
      ((applyV2Digital t n st).gpio_config n).intMode = (st.gpio_config n).intMode ∧
      ((applyV2Digital t n st).gpio_config n).intState = (st.gpio_config n).intState ∧
      ((applyV2Digital t n st).gpio_config n).intMask = (st.gpio_config n).intMask) ∧
    (∀ (t : V2AltTransition) (n : Nat) (st1 st2 : GlbV2State),
      (applyV2Alt t n st1).gpio_config n = (applyV2Alt t n st2).gpio_config n) ∧
    (∀ (n : Nat) (st : Glbv1State),
      (∀ t : V1Transition, t = .uart ∨
        ∃ w, (applyV1 t n st).gpio_config = upd st.gpio_config (n / 2) w) ∧
      (Padv1.into_pull_up_output n st).gpio_output_enable
          = st.gpio_output_enable ||| 1 <<< n ∧
      (Padv1.into_pull_down_output n st).gpio_output_enable
          = st.gpio_output_enable ||| 1 <<< n ∧
      (Padv1.into_floating_output n st).gpio_output_enable
          = st.gpio_output_enable ||| 1 <<< n ∧
      (Padv1.into_pull_up_input n st).gpio_output_enable
          = clearBit st.gpio_output_enable n ∧
      (Padv1.into_pull_down_input n st).gpio_output_enable
          = clearBit st.gpio_output_enable n ∧
      (Padv1.into_floating_input n st).gpio_output_enable
          = clearBit st.gpio_output_enable n ∧
      (∃ w, (Padv1.into_uart n st).gpio_config = upd st.gpio_config n w) ∧
      (Padv1.into_uart n st).gpio_output_enable = st.gpio_output_enable) := by
  refine ⟨?_, ?_, ?_⟩
  · intro t n st
    cases t <;>
      refine ⟨rfl, ?_, ?_, ?_, ?_, ?_⟩ <;>
      simp [applyV2Digital, Pad.into_pull_up_output, Pad.into_pull_down_output,
        Pad.into_floating_output, Pad.into_pull_up_input, Pad.into_pull_down_input,
        Pad.into_floating_input, upd_same, GpioConfig.set_pull, GpioConfig.enable_output,
        GpioConfig.disable_output, GpioConfig.enable_input, GpioConfig.disable_input,
        GpioConfig.set_mode, GpioConfig.set_function]
  · intro t n st1 st2
    cases t <;>
      simp [applyV2Alt, Pad.into_uart, Pad.into_mm_uart, Pad.into_spi, Pad.into_i2c,
        Pad.into_pull_up_pwm, Pad.into_pull_down_pwm, Pad.into_floating_pwm, upd_same]
  · intro n st
    refine ⟨?_, rfl, rfl, rfl, rfl, rfl, rfl, ⟨_, rfl⟩, rfl⟩
    intro t
    cases t
    case uart => exact Or.inl rfl
    all_goals exact Or.inr ⟨_, rfl⟩

/-- Counterexample state for claim C5: all reset values. -/
def stC5 : GlbV2State :=
  { gpio_config := fun _ => GpioConfig.RESET_VALUE }

/-- Counterexample to claim C5 as stated: the transition of pad 0 into
the Spi role writes a configuration word whose output enable is not set
(the source calls disable_output in the builder chain of into_spi). -/
theorem C5_counterexample :
    ¬ (((Pad.into_spi .spi0 0 stC5).gpio_config 0).outputEnable = true) := by
  decide

/-- Claim C5, amended: every glb-v2 transition into a Uart, MmUart or
I2c role writes a configuration word with input enable set, output
enable set and schmitt trigger enabled, while the glb-v2 transition into
a Spi role writes input enable and schmitt trigger enabled but output
enable cleared. -/
theorem C5_alternate_function_policy (st : GlbV2State) (n : Nat) (f : FunctionV2) :
    (((Pad.into_uart n st).gpio_config n).inputEnable = true ∧
     ((Pad.into_uart n st).gpio_config n).outputEnable = true ∧
     ((Pad.into_uart n st).gpio_config n).schmitt = true) ∧
    (((Pad.into_mm_uart n st).gpio_config n).inputEnable = true ∧
     ((Pad.into_mm_uart n st).gpio_config n).outputEnable = true ∧
     ((Pad.into_mm_uart n st).gpio_config n).schmitt = true) ∧
    (((Pad.into_i2c f n st).gpio_config n).inputEnable = true ∧
     ((Pad.into_i2c f n st).gpio_config n).outputEnable = true ∧
     ((Pad.into_i2c f n st).gpio_config n).schmitt = true) ∧
    (((Pad.into_spi f n st).gpio_config n).inputEnable = true ∧
     ((Pad.into_spi f n st).gpio_config n).outputEnable = false ∧
     ((Pad.into_spi f n st).gpio_config n).schmitt = true) := by
  refine ⟨⟨?_, ?_, ?_⟩, ⟨?_, ?_, ?_⟩, ⟨?_, ?_, ?_⟩, ⟨?_, ?_, ?_⟩⟩ <;>
  simp [Pad.into_uart, Pad.into_mm_uart, Pad.into_i2c, Pad.into_spi, upd_same,
    UART_GPIO_CONFIG, GpioConfig.RESET_VALUE, GpioConfig.enable_input,
    GpioConfig.enable_output, GpioConfig.disable_output, GpioConfig.enable_schmitt,
    GpioConfig.set_drive, GpioConfig.set_pull, GpioConfig.set_function]

/-! ## Runtime failure modes (claim C6) -/

/-- Counterexample configuration for claim C6: a transmit baudrate of
160 MBd against an 80 MHz UART clock gives a bit-period interval of 0,
outside the accepted 1 to 65535 range. -/
def cfgC6 : Config :=
  { transmit_baudrate := 160000000, receive_baudrate := 115200,
    bit_order := .lsbFirst, parity := .none, stop_bits := .one,
    word_length := .eight }

/-- Counterexample to claim C6 as stated: constructing a serial instance
from validated pads is not panic-free for every input; with the clock at
80 MHz and a transmit baudrate of 160 MBd, freerun panics with the
impossible-transmit-baudrate message. -/
theorem C6_counterexample :
    Serial.freerun (Option.some 80000000) cfgC6 (.txdOnly ⟨0, 0⟩) =
      .error "Impossible transmit baudrate!" := by
  rfl

/-- Claim C6, amended: GPIO level reads and writes surface no error
value and cannot fail, but constructing a serial instance panics exactly
when the UART clock source is unavailable or a computed bit-period
interval falls outside 1 to 65535; otherwise freerun returns normally. -/
theorem C6_runtime_failure_modes :
    (∀ (n : Nat) (st : Glbv1State), ∃ b, Padv1.is_high n st = .ok b) ∧
    (∀ (n : Nat) (st : Glbv1State), ∃ b, Padv1.is_low n st = .ok b) ∧
    (∀ (n : Nat) (st : Glbv1State), ∃ st2, Padv1.set_high n st = .ok st2) ∧
    (∀ (n : Nat) (st : Glbv1State), ∃ st2, Padv1.set_low n st = .ok st2) ∧
    (∀ (uc : Option Nat) (config : Config) (pads : UartPads),
      (∃ s, Serial.freerun uc config pads = .ok s) ↔
      (∃ c, uc = Option.some c ∧
        ((1 ≤ c / config.transmit_baudrate ∧ c / config.transmit_baudrate ≤ 65535) ∧
         (1 ≤ c / config.receive_baudrate ∧ c / config.receive_baudrate ≤ 65535)))) := by
  refine ⟨fun n st => ⟨_, rfl⟩, fun n st => ⟨_, rfl⟩, fun n st => ⟨_, rfl⟩,
    fun n st => ⟨_, rfl⟩, ?_⟩
  intro uc config pads
  cases uc with
  | none => simp [Serial.freerun]
  | some c =>
    by_cases h1 : 1 ≤ c / config.transmit_baudrate ∧ c / config.transmit_baudrate ≤ 65535
    · by_cases h2 : 1 ≤ c / config.receive_baudrate ∧ c / config.receive_baudrate ≤ 65535
      · simp [Serial.freerun, h1, h2, h1.1, h1.2, h2.1, h2.2]
      · simp [Serial.freerun, h1, h2]
    · simp [Serial.freerun, h1]

end BouffaloHal
